import Mathlib

/-
Shallow embedding of src/crypto_bot_render.py.

Modelling conventions:
- Python `user_data` (a dict keyed by the Telegram user id) is a partial map
  `Nat → Option UserRecord`; dict assignment is functional override (`setRec`).
- The APScheduler job store is a list of `Job`s.  `scheduler.remove_job(j)`
  wrapped in `try/except: pass` removes every job with that id and is a no-op
  when absent, hence a filter; `scheduler.add_job(..., id=j, replace_existing=True)`
  first drops any job with the same id, then appends the new job.
- Job ids are the strings `f"user_{user_id}"`, `f"user_{user_id}_daily"` plus the
  automatically generated id of the `save_user_data` job; since the user id is an
  integer these three formats never collide, and they are modelled by the
  injective constructors of `JobId`.
- Monetary values (`usd`, `usd_24h_change`) are modelled as integers; Python's
  float rendering (`:,.2f`, `:+.2f`) is abstracted to `toString`, which keeps the
  report a deterministic function of its numeric inputs.
- The wall-clock timestamp `datetime.utcnow().strftime(...)` that the code embeds
  in every report is made an explicit `now : String` argument.
- Network effects are injected: `FetchOutcome` is what the aiohttp call did, and
  `get_crypto_prices` maps it to the dict the Python function returns.
- Handler outcomes that matter to the claims (messages sent, alerts, raised and
  caught exceptions) are reified in `Output`; an uncaught Python exception inside
  a handler aborts it before any further mutation, which the embedding renders by
  returning the unchanged state together with an error output.
-/

namespace CryptoBot

/-- CRYPTO_OPTIONS from lines 35-50: display name paired with CoinGecko id. -/
def CRYPTO_OPTIONS : List (String × String) :=
  [("Bitcoin", "bitcoin"),
   ("Ethereum", "ethereum"),
   ("Solana", "solana"),
   ("Cardano", "cardano"),
   ("Dogecoin", "dogecoin"),
   ("Polkadot", "polkadot"),
   ("Avalanche", "avalanche-2"),
   ("Chainlink", "chainlink"),
   ("Litecoin", "litecoin"),
   ("Ripple", "ripple"),
   ("Binance Coin", "binancecoin"),
   ("Polygon", "matic-network"),
   ("Cosmos", "cosmos"),
   ("Uniswap", "uniswap")]

/-- INTERVAL_OPTIONS from lines 53-61: label paired with minutes. -/
def INTERVAL_OPTIONS : List (String × Int) :=
  [("15 minutes", 15),
   ("30 minutes", 30),
   ("1 hour", 60),
   ("3 hours", 180),
   ("6 hours", 360),
   ("12 hours", 720),
   ("24 hours", 1440)]

/-- One entry of the price snapshot returned by the CoinGecko simple-price API:
`usd` price and `usd_24h_change`, abstracted to integers. -/
structure PriceData where
  usd : Int
  usd_24h_change : Int
deriving DecidableEq, Repr

/-- A price snapshot: the JSON dict mapping coin id to its price data,
modelled as an association list with the dict's (unique-key) lookup. -/
abbrev Snapshot := List (String × PriceData)

/-- Dict lookup `prices[coin_id]` guarded by `coin_id in prices`. -/
def snapshot_find (s : Snapshot) (k : String) : Option PriceData :=
  (s.find? (fun p => p.1 == k)).map (fun p => p.2)

/-- APScheduler job ids used by the code: `f"user_{user_id}"` (interval jobs,
lines 298 and 370), `f"user_{user_id}_daily"` (cron jobs, line 409), and the
autogenerated id of the periodic `save_user_data` job (line 672).  The three
string formats are injective in the user id and mutually distinct, which the
constructors capture. -/
inductive JobId where
  | user (uid : Nat)
  | userDaily (uid : Nat)
  | saveData
deriving DecidableEq, Repr

/-- One record of the `user_data` dict (created at lines 216-221 / 244-249):
`subscribed_coins`, `update_interval`, `is_subscribed`, `job_id`. -/
structure UserRecord where
  subscribed_coins : List String
  update_interval : Int
  is_subscribed : Bool
  job_id : Option JobId
deriving DecidableEq, Repr

/-- The trigger of an APScheduler job: `'interval'` with minutes, or `'cron'`
with hour and minute. -/
inductive Trigger where
  | interval (minutes : Int)
  | cron (hour minute : Int)
deriving DecidableEq, Repr

/-- One job in the APScheduler job store.  `userArg` is the `args=[user_id]`
payload of the price-update jobs (`none` for the save job); note that a job
carries no watchlist — only the user id. -/
structure Job where
  id : JobId
  trigger : Trigger
  userArg : Option Nat
deriving DecidableEq, Repr

/-- The mutable state of the process: the `user_data` dict and the scheduler's
job store. -/
structure BotState where
  user_data : Nat → Option UserRecord
  scheduler : List Job

/-- Dict assignment `user_data[uid] = u` as functional override. -/
def setRec (uid : Nat) (u : UserRecord) (d : Nat → Option UserRecord) :
    Nat → Option UserRecord :=
  fun k => if k = uid then some u else d k

/-- The `try: scheduler.remove_job(j) except: pass` pattern (lines 300-304,
371-375, 410-414, 464-468): drops the job with that id, no-op when absent. -/
def remove_job (sch : List Job) (j : JobId) : List Job :=
  sch.filter (fun x => !(decide (x.id = j)))

/-- `scheduler.add_job(..., id=nj.id, replace_existing=True)`: any existing job
with the same id is replaced by the new one. -/
def add_job (sch : List Job) (nj : Job) : List Job :=
  (sch.filter (fun x => !(decide (x.id = nj.id)))) ++ [nj]

/-- The `if user_data[user_id]['job_id']: try remove_job ...` preamble shared by
every (re)install and by unsubscribe. -/
def remove_old (jo : Option JobId) (sch : List Job) : List Job :=
  match jo with
  | some j => remove_job sch j
  | none => sch

/-- The default record created on first interaction (lines 216-221, 244-249). -/
def default_record : UserRecord :=
  { subscribed_coins := [], update_interval := 60, is_subscribed := false, job_id := none }

/-- Observable outcomes of the handlers, as far as the claims need them. -/
inductive Output where
  | showCoinKeyboard
  | alreadySubscribed
  | editKeyboard
  | alertSelectCoin
  | showIntervalKeyboard
  | keyError
  | activated
  | scheduled
  | errorMsg (e : String)
  | notSubscribed
  | unsubscribed
  | noRecord
  | noCoins
  | fetchWarning
  | sent (msg : String)
  | exceptionLogged
  | handlerException
deriving DecidableEq, Repr

/-- What the aiohttp request to the price API did. -/
inductive FetchOutcome where
  | ok (payload : Snapshot)
  | badStatus
  | exn
deriving DecidableEq, Repr

/-- get_crypto_prices (lines 79-94): returns the response JSON on HTTP 200, and
the empty dict both on a non-200 status and on any exception. -/
def get_crypto_prices (o : FetchOutcome) : Snapshot :=
  match o with
  | FetchOutcome.ok payload => payload
  | FetchOutcome.badStatus => []
  | FetchOutcome.exn => []

/-- The display-name lookup `[k for k, v in CRYPTO_OPTIONS.items() if v == coin_id][0]`
(lines 169, 498, 558, 583); `none` models the IndexError raised when the
comprehension is empty. -/
def coin_name_lookup (coin_id : String) : Option String :=
  ((CRYPTO_OPTIONS.filter (fun p => p.2 == coin_id)).map (fun p => p.1)).head?

/-- Direction marker for the 24h change (lines 173, 562). -/
def change_emoji (c : Int) : String :=
  if c > 0 then "📈" else if c < 0 then "📉" else "➡️"

/-- The two lines appended per reported coin (lines 174-175, 563-564), numeric
rendering abstracted to `toString`. -/
def format_coin_line (name : String) (pd : PriceData) : String :=
  "**" ++ name ++ "**: $" ++ toString pd.usd ++ "\n   24h: " ++
    change_emoji pd.usd_24h_change ++ " " ++ toString pd.usd_24h_change ++ "%\n\n"

/-- The per-coin report loop of lines 166-175 (also 555-564): a coin absent from
the snapshot is skipped; a coin present in the snapshot whose display name is
unknown raises IndexError, modelled as `none`. -/
def report_body (coins : List String) (prices : Snapshot) : Option String :=
  match coins with
  | [] => some ""
  | c :: rest =>
    match snapshot_find prices c with
    | none => report_body rest prices
    | some pd =>
      match coin_name_lookup c with
      | none => none
      | some name =>
        match report_body rest prices with
        | none => none
        | some tail => some (format_coin_line name pd ++ tail)

/-- Header of the scheduled update message (lines 163-164); `now` is the
`datetime.utcnow()` timestamp the code interpolates. -/
def update_header (now : String) : String :=
  "📊 **Crypto Price Update**\n⏰ " ++ now ++ " UTC\n\n"

/-- The full message built by send_price_update, lines 163-177. -/
def build_full_report (now : String) (coins : List String) (prices : Snapshot) :
    Option String :=
  (report_body coins prices).map
    (fun body => update_header now ++ body ++ "\nUse /settings to modify your preferences.")

/-- send_price_update (lines 147-182).  The whole body is inside `try/except`,
and no branch mutates `user_data` or the scheduler, so the state is returned
unchanged; `exceptionLogged` is the `except` branch at line 181 (reached when
the display-name lookup raises IndexError). -/
def send_price_update (now : String) (fetch : FetchOutcome) (uid : Nat)
    (st : BotState) : BotState × Output :=
  match st.user_data uid with
  | none => (st, Output.noRecord)
  | some u =>
    if u.subscribed_coins = [] then (st, Output.noCoins)
    else
      let prices := get_crypto_prices fetch
      if prices = [] then (st, Output.fetchWarning)
      else
        match build_full_report now u.subscribed_coins prices with
        | none => (st, Output.exceptionLogged)
        | some msg => (st, Output.sent msg)

/-- subscribe_command (lines 210-234): creates a default record when absent,
refuses when already subscribed, otherwise opens the coin keyboard. -/
def subscribe_command (uid : Nat) (st : BotState) : BotState × Output :=
  match st.user_data uid with
  | none =>
    ({ st with user_data := setRec uid default_record st.user_data },
      Output.showCoinKeyboard)
  | some u =>
    if u.is_subscribed then (st, Output.alreadySubscribed)
    else (st, Output.showCoinKeyboard)

/-- The toggle of lines 251-254: `list.remove` drops the first occurrence,
`append` adds at the end. -/
def toggle_coin (coin_id : String) (l : List String) : List String :=
  if coin_id ∈ l then l.erase coin_id else l ++ [coin_id]

/-- coin_selection_callback (lines 237-259): creates a default record when
absent, then toggles the coin in `subscribed_coins`. -/
def coin_selection_callback (uid : Nat) (coin_id : String) (st : BotState) :
    BotState × Output :=
  let u := (st.user_data uid).getD default_record
  ({ st with
      user_data :=
        setRec uid { u with subscribed_coins := toggle_coin coin_id u.subscribed_coins }
          st.user_data },
    Output.editKeyboard)

/-- The four callback choices handled by coin_action_callback. -/
inductive CoinAction where
  | select_all
  | clear_all
  | coins_done
  | selected_count
deriving DecidableEq, Repr

/-- coin_action_callback (lines 262-287).  The handler indexes `user_data[user_id]`
without creating it, so an absent record raises KeyError (uncaught, no mutation).
`coins_done` with an empty selection only answers with an alert and returns. -/
def coin_action_callback (uid : Nat) (action : CoinAction) (st : BotState) :
    BotState × Output :=
  match st.user_data uid with
  | none => (st, Output.keyError)
  | some u =>
    match action with
    | CoinAction.select_all =>
      ({ st with
          user_data :=
            setRec uid { u with subscribed_coins := CRYPTO_OPTIONS.map (fun p => p.2) }
              st.user_data },
        Output.editKeyboard)
    | CoinAction.clear_all =>
      ({ st with
          user_data := setRec uid { u with subscribed_coins := [] } st.user_data },
        Output.editKeyboard)
    | CoinAction.coins_done =>
      if u.subscribed_coins = [] then (st, Output.alertSelectCoin)
      else (st, Output.showIntervalKeyboard)
    | CoinAction.selected_count => (st, Output.editKeyboard)

/-- interval_selection_callback (lines 291-331): sets `update_interval`, removes
the old job when a `job_id` is stored, adds the interval job `user_{uid}` with
`replace_existing=True`, stores the handle and sets `is_subscribed`.  The
`interval_name` lookup at line 318 raises IndexError when the minutes are not
one of INTERVAL_OPTIONS — after the mutations, so the state change stands. -/
def interval_selection_callback (uid : Nat) (interval_minutes : Int)
    (st : BotState) : BotState × Output :=
  match st.user_data uid with
  | none => (st, Output.keyError)
  | some u =>
    let u1 := { u with update_interval := interval_minutes }
    let sch1 := remove_old u1.job_id st.scheduler
    let sch2 := add_job sch1
      { id := JobId.user uid, trigger := Trigger.interval interval_minutes,
        userArg := some uid }
    let u2 := { u1 with job_id := some (JobId.user uid), is_subscribed := true }
    let st1 : BotState := { user_data := setRec uid u2 st.user_data, scheduler := sch2 }
    (st1,
      if (INTERVAL_OPTIONS.filter (fun p => p.2 == interval_minutes)).isEmpty then
        Output.handlerException
      else Output.activated)

/-- The parsed denotation of a custom-schedule text (process_custom_time input):
`every N minutes`, `every N hours`, `... at H:M` (minute 0 when no colon), or a
text matching none of the formats. -/
inductive CustomInput where
  | everyMinutes (n : Int)
  | everyHours (n : Int)
  | atTime (h m : Int)
  | malformed
deriving DecidableEq, Repr

/-- The interval-install block of process_custom_time (lines 368-396), entered
after validation passed: sets `update_interval`, replaces any old job with the
interval job `user_{uid}`, stores the handle and sets `is_subscribed`.  An
absent record raises KeyError at line 368, caught by the handler's `except` at
line 443 which sends an error message. -/
def install_interval (uid : Nat) (minutes : Int) (st : BotState) :
    BotState × Output :=
  match st.user_data uid with
  | none => (st, Output.errorMsg "KeyError")
  | some u =>
    let u1 := { u with update_interval := minutes }
    let sch1 := remove_old u1.job_id st.scheduler
    let sch2 := add_job sch1
      { id := JobId.user uid, trigger := Trigger.interval minutes, userArg := some uid }
    let u2 := { u1 with job_id := some (JobId.user uid), is_subscribed := true }
    ({ user_data := setRec uid u2 st.user_data, scheduler := sch2 }, Output.scheduled)

/-- The daily-install block of process_custom_time (lines 409-436): replaces any
old job with the cron job `user_{uid}_daily`, stores the handle and sets
`is_subscribed`; `update_interval` is NOT touched by this branch. -/
def install_daily (uid : Nat) (hour minute : Int) (st : BotState) :
    BotState × Output :=
  match st.user_data uid with
  | none => (st, Output.errorMsg "KeyError")
  | some u =>
    let sch1 := remove_old u.job_id st.scheduler
    let sch2 := add_job sch1
      { id := JobId.userDaily uid, trigger := Trigger.cron hour minute,
        userArg := some uid }
    let u2 := { u with job_id := some (JobId.userDaily uid), is_subscribed := true }
    ({ user_data := setRec uid u2 st.user_data, scheduler := sch2 }, Output.scheduled)

/-- process_custom_time (lines 350-452) over the parsed input.  Validation
(lines 365-366 and 406-407) raises ValueError BEFORE any state access or
mutation; the `except` at line 443 turns every raised error into an error
message with the state untouched. -/
def process_custom_time (uid : Nat) (inp : CustomInput) (st : BotState) :
    BotState × Output :=
  match inp with
  | CustomInput.everyMinutes n =>
    if n < 1 then (st, Output.errorMsg "Interval must be at least 1 minute")
    else install_interval uid n st
  | CustomInput.everyHours n =>
    let minutes := n * 60
    if minutes < 1 then (st, Output.errorMsg "Interval must be at least 1 minute")
    else install_interval uid minutes st
  | CustomInput.atTime h m =>
    if 0 ≤ h ∧ h < 24 ∧ 0 ≤ m ∧ m < 60 then install_daily uid h m st
    else (st, Output.errorMsg "Invalid time")
  | CustomInput.malformed =>
    (st, Output.errorMsg "Invalid format. Please use examples provided.")

/-- unsubscribe_command (lines 455-478): refuses when the record is absent or
not subscribed; otherwise removes the stored job, clears `is_subscribed` and
`job_id`, and leaves every other field (and the record itself) in place. -/
def unsubscribe_command (uid : Nat) (st : BotState) : BotState × Output :=
  match st.user_data uid with
  | none => (st, Output.notSubscribed)
  | some u =>
    if u.is_subscribed then
      let sch1 := remove_old u.job_id st.scheduler
      let u1 := { u with is_subscribed := false, job_id := none }
      ({ user_data := setRec uid u1 st.user_data, scheduler := sch1 },
        Output.unsubscribed)
    else (st, Output.notSubscribed)

/-- The default coin list of prices_command, line 545. -/
def default_price_coins : List String :=
  ["bitcoin", "ethereum", "solana", "cardano", "dogecoin"]

/-- prices_command (lines 536-569): picks the user's coins when present and
non-empty, else the default five; warns on an empty snapshot; the display-name
lookup is NOT wrapped in try/except here, so its IndexError aborts the handler
(`handlerException`). -/
def prices_command (fetch : FetchOutcome) (uid : Nat) (st : BotState) :
    BotState × Output :=
  let coins_to_check :=
    match st.user_data uid with
    | some u => if u.subscribed_coins = [] then default_price_coins else u.subscribed_coins
    | none => default_price_coins
  let prices := get_crypto_prices fetch
  if prices = [] then (st, Output.fetchWarning)
  else
    match report_body coins_to_check prices with
    | none => (st, Output.handlerException)
    | some body =>
      let tip :=
        match st.user_data uid with
        | some u => if u.is_subscribed then "" else "\n💡 Use /subscribe to get automatic updates!"
        | none => "\n💡 Use /subscribe to get automatic updates!"
      (st, Output.sent ("📊 **Current Crypto Prices**\n\n" ++ body ++ tip))

/-- The periodic save_user_data job added at line 672 (id autogenerated by
APScheduler). -/
def save_job : Job :=
  { id := JobId.saveData, trigger := Trigger.interval 5, userArg := none }

/-- The startup sequence of run_bot (lines 648-686): starts the scheduler
(empty job store), loads the persisted `user_data` dict, and adds the periodic
save job.  No other job is added: the function installs no per-subscriber
timer. -/
def run_bot_startup (loaded : Nat → Option UserRecord) : BotState :=
  { user_data := loaded, scheduler := add_job [] save_job }

/-- Decides whether a job id belongs to subscriber `uid` (one of the two
formats `user_{uid}` / `user_{uid}_daily`). -/
def is_user_job_id (uid : Nat) (i : JobId) : Bool :=
  decide (i = JobId.user uid) || decide (i = JobId.userDaily uid)

/-- The live timers registered for subscriber `uid`. -/
def jobs_for (uid : Nat) (sch : List Job) : List Job :=
  sch.filter (fun j => is_user_job_id uid j.id)

/-- The ids of the live timers registered for subscriber `uid`. -/
def job_ids_for (uid : Nat) (sch : List Job) : List JobId :=
  (jobs_for uid sch).map (fun j => j.id)

/-- The per-subscriber invariant of the spec: `is_subscribed` holds iff a
`job_id` handle is stored iff exactly one live timer is registered for the
subscriber (and the registered timer is the stored handle); a subscriber
without a record, or inactive, has no timer at all. -/
def subscriber_ok (uid : Nat) (st : BotState) : Bool :=
  match st.user_data uid with
  | none => decide (jobs_for uid st.scheduler = [])
  | some u =>
    match u.job_id with
    | none => !u.is_subscribed && decide (jobs_for uid st.scheduler = [])
    | some jid =>
      u.is_subscribed && is_user_job_id uid jid &&
        decide (job_ids_for uid st.scheduler = [jid])

/-- The core operations of the bot, each tagged with the acting user. -/
inductive Op where
  | subscribeCmd (uid : Nat)
  | toggleCoin (uid : Nat) (coin : String)
  | coinAction (uid : Nat) (a : CoinAction)
  | intervalSel (uid : Nat) (minutes : Int)
  | customTime (uid : Nat) (inp : CustomInput)
  | unsubscribeCmd (uid : Nat)
  | fire (uid : Nat) (now : String) (fetch : FetchOutcome)
  | pricesCmd (uid : Nat) (fetch : FetchOutcome)

/-- The user acting in an operation. -/
def Op.actor : Op → Nat
  | Op.subscribeCmd u => u
  | Op.toggleCoin u _ => u
  | Op.coinAction u _ => u
  | Op.intervalSel u _ => u
  | Op.customTime u _ => u
  | Op.unsubscribeCmd u => u
  | Op.fire u _ _ => u
  | Op.pricesCmd u _ => u

/-- The state component of each operation. -/
def apply_op (o : Op) (st : BotState) : BotState :=
  match o with
  | Op.subscribeCmd uid => (subscribe_command uid st).1
  | Op.toggleCoin uid c => (coin_selection_callback uid c st).1
  | Op.coinAction uid a => (coin_action_callback uid a st).1
  | Op.intervalSel uid n => (interval_selection_callback uid n st).1
  | Op.customTime uid inp => (process_custom_time uid inp st).1
  | Op.unsubscribeCmd uid => (unsubscribe_command uid st).1
  | Op.fire uid now fetch => (send_price_update now fetch uid st).1
  | Op.pricesCmd uid fetch => (prices_command fetch uid st).1

/-- The output of a fire as a function of the watchlist read at fire time
(the second component of send_price_update once the record is present). -/
def fire_output (now : String) (fetch : FetchOutcome) (coins : List String) : Output :=
  if coins = [] then Output.noCoins
  else if get_crypto_prices fetch = [] then Output.fetchWarning
  else
    match build_full_report now coins (get_crypto_prices fetch) with
    | none => Output.exceptionLogged
    | some msg => Output.sent msg

/-- The invalid custom-schedule denotations of claim C6: an interval below one
minute (directly or via hours), or a daily time with hour outside 0-23 or
minute outside 0-59; mirrors the checks at lines 365-366 and 406-407. -/
def invalid_schedule_input : CustomInput → Bool
  | CustomInput.everyMinutes n => decide (n < 1)
  | CustomInput.everyHours n => decide (n * 60 < 1)
  | CustomInput.atTime h m =>
    !(decide (0 ≤ h) && decide (h < 24) && decide (0 ≤ m) && decide (m < 60))
  | CustomInput.malformed => false

/-- A concrete subscribed record used by witnesses: user 7 watches two coins
and has the interval job installed. -/
def demo_record : UserRecord :=
  { subscribed_coins := ["bitcoin", "ethereum"], update_interval := 60,
    is_subscribed := true, job_id := some (JobId.user 7) }

/-- A concrete consistent state for user 7: the record is active and exactly
its interval timer is registered. -/
def demo_state : BotState :=
  { user_data := fun k => if k = 7 then some demo_record else none,
    scheduler := [{ id := JobId.user 7, trigger := Trigger.interval 60,
                    userArg := some 7 }] }

/-- A concrete idle record: user 3 exists with an empty watchlist and no
schedule. -/
def idle_state : BotState :=
  { user_data := fun k => if k = 3 then some default_record else none,
    scheduler := [] }

/-- The persisted record of claim C1's restart scenario: active, interval 60,
with the stored (now dangling) job handle. -/
def restored_record : UserRecord :=
  { subscribed_coins := ["bitcoin"], update_interval := 60,
    is_subscribed := true, job_id := some (JobId.user 42) }

/-- The restored `user_data.json` content of claim C1's restart scenario. -/
def restored_store : Nat → Option UserRecord :=
  fun k => if k = 42 then some restored_record else none

/-- A record whose stored interval is `n`, used to probe what unsubscribe
retains. -/
def c9_record (n : Int) : UserRecord :=
  { subscribed_coins := ["bitcoin"], update_interval := n,
    is_subscribed := true, job_id := some (JobId.user 11) }

/-- A consistent state for user 11 with stored interval `n`. -/
def c9_state (n : Int) : BotState :=
  { user_data := fun k => if k = 11 then some (c9_record n) else none,
    scheduler := [{ id := JobId.user 11, trigger := Trigger.interval n,
                    userArg := some 11 }] }

/-- A state in which user 9 watches an asset id that is not among
CRYPTO_OPTIONS. -/
def tether_state : BotState :=
  { user_data := fun k =>
      if k = 9 then
        some { subscribed_coins := ["tether"], update_interval := 60,
               is_subscribed := true, job_id := some (JobId.user 9) }
      else none,
    scheduler := [{ id := JobId.user 9, trigger := Trigger.interval 60,
                    userArg := some 9 }] }

/-- A state in which user 13 watches a known asset together with an asset id
that is not among CRYPTO_OPTIONS. -/
def mixed_state : BotState :=
  { user_data := fun k =>
      if k = 13 then
        some { subscribed_coins := ["bitcoin", "tether"], update_interval := 60,
               is_subscribed := true, job_id := some (JobId.user 13) }
      else none,
    scheduler := [{ id := JobId.user 13, trigger := Trigger.interval 60,
                    userArg := some 13 }] }

/-- A state for user 5 whose watchlist is empty and who is not subscribed. -/
def emptywl_state : BotState :=
  { user_data := fun k => if k = 5 then some default_record else none,
    scheduler := [] }

theorem setRec_same (uid : Nat) (u : UserRecord) (d : Nat → Option UserRecord) :
    setRec uid u d uid = some u := by
  simp [setRec]

theorem setRec_other (uid v : Nat) (h : uid ≠ v) (u : UserRecord)
    (d : Nat → Option UserRecord) : setRec v u d uid = d uid := by
  simp [setRec, h]

theorem filter_swap {α : Type} (p q : α → Bool) (l : List α) :
    (l.filter q).filter p = (l.filter p).filter q := by
  rw [List.filter_filter, List.filter_filter]
  exact List.filter_congr (fun x _ => Bool.and_comm (p x) (q x))

theorem jobs_for_remove (uid : Nat) (sch : List Job) (j : JobId) :
    jobs_for uid (remove_job sch j) = remove_job (jobs_for uid sch) j := by
  unfold jobs_for remove_job
  exact filter_swap _ _ sch

theorem jobs_for_single (uid : Nat) (nj : Job) :
    jobs_for uid [nj] = if is_user_job_id uid nj.id then [nj] else [] := by
  cases h : is_user_job_id uid nj.id <;> simp [jobs_for, List.filter, h]

theorem jobs_for_add (uid : Nat) (sch : List Job) (nj : Job) :
    jobs_for uid (add_job sch nj) =
      remove_job (jobs_for uid sch) nj.id ++
        (if is_user_job_id uid nj.id then [nj] else []) := by
  unfold add_job
  rw [jobs_for, List.filter_append]
  rw [show (List.filter (fun j => is_user_job_id uid j.id)
        (List.filter (fun x => !(decide (x.id = nj.id))) sch)) =
      jobs_for uid (remove_job sch nj.id) from rfl]
  rw [jobs_for_remove]
  rw [show List.filter (fun j => is_user_job_id uid j.id) [nj] = jobs_for uid [nj] from rfl]
  rw [jobs_for_single]

theorem is_user_job_id_iff (uid : Nat) (i : JobId) :
    is_user_job_id uid i = true ↔ i = JobId.user uid ∨ i = JobId.userDaily uid := by
  simp [is_user_job_id]

theorem is_user_job_id_other (uid v : Nat) (h : uid ≠ v) (i : JobId)
    (hi : is_user_job_id v i = true) : is_user_job_id uid i = false := by
  have h2 : ¬v = uid := fun he => h he.symm
  rcases (is_user_job_id_iff v i).mp hi with h1 | h1 <;>
    subst h1 <;> simp [is_user_job_id, h2]

theorem remove_own (uid : Nat) (sch : List Job) (jid : JobId)
    (h : job_ids_for uid sch = [jid]) :
    remove_job (jobs_for uid sch) jid = [] := by
  unfold job_ids_for at h
  cases hl : jobs_for uid sch with
  | nil => simp [remove_job]
  | cons a t =>
    rw [hl] at h
    simp only [List.map_cons, List.cons.injEq] at h
    obtain ⟨h1, h2⟩ := h
    have ht : t = [] := List.map_eq_nil_iff.mp h2
    subst ht
    simp [remove_job, h1]

theorem remove_other (uid v : Nat) (hne : uid ≠ v) (sch : List Job) (jid : JobId)
    (hj : is_user_job_id v jid = true) :
    remove_job (jobs_for uid sch) jid = jobs_for uid sch := by
  apply List.filter_eq_self.mpr
  intro x hx
  have hx2 : is_user_job_id uid x.id = true := (List.mem_filter.mp hx).2
  have hxne : x.id ≠ jid := by
    intro he
    rw [he] at hx2
    rw [is_user_job_id_other uid v hne jid hj] at hx2
    exact Bool.false_ne_true hx2
  simp [hxne]

theorem subscriber_ok_congr (uid : Nat) (st st2 : BotState)
    (hd : st2.user_data uid = st.user_data uid)
    (hs : jobs_for uid st2.scheduler = jobs_for uid st.scheduler) :
    subscriber_ok uid st2 = subscriber_ok uid st := by
  unfold subscriber_ok job_ids_for
  rw [hd, hs]

theorem subscriber_ok_of_none (uid : Nat) (st : BotState)
    (hd : st.user_data uid = none) (h : subscriber_ok uid st = true) :
    jobs_for uid st.scheduler = [] := by
  simp only [subscriber_ok, hd, decide_eq_true_eq] at h
  exact h

theorem subscriber_ok_of_handle_none (uid : Nat) (st : BotState) (u : UserRecord)
    (hd : st.user_data uid = some u) (hj : u.job_id = none)
    (h : subscriber_ok uid st = true) :
    u.is_subscribed = false ∧ jobs_for uid st.scheduler = [] := by
  simp only [subscriber_ok, hd, hj, Bool.and_eq_true, Bool.not_eq_true',
    decide_eq_true_eq] at h
  exact h

theorem subscriber_ok_of_handle_some (uid : Nat) (st : BotState) (u : UserRecord)
    (jid : JobId) (hd : st.user_data uid = some u) (hj : u.job_id = some jid)
    (h : subscriber_ok uid st = true) :
    u.is_subscribed = true ∧ is_user_job_id uid jid = true ∧
      job_ids_for uid st.scheduler = [jid] := by
  simp only [subscriber_ok, hd, hj, Bool.and_eq_true, decide_eq_true_eq] at h
  exact ⟨h.1.1, h.1.2, h.2⟩

theorem jobs_for_remove_old_own (v : Nat) (st : BotState) (u : UserRecord)
    (hv : st.user_data v = some u) (hok : subscriber_ok v st = true) :
    jobs_for v (remove_old u.job_id st.scheduler) = [] := by
  cases hj : u.job_id with
  | none =>
    have h2 := (subscriber_ok_of_handle_none v st u hv hj hok).2
    simpa [remove_old] using h2
  | some jid =>
    have h3 := (subscriber_ok_of_handle_some v st u jid hv hj hok).2.2
    show jobs_for v (remove_job st.scheduler jid) = []
    rw [jobs_for_remove]
    exact remove_own v st.scheduler jid h3

theorem jobs_for_remove_old_other (uid v : Nat) (hne : uid ≠ v) (st : BotState)
    (u : UserRecord) (hv : st.user_data v = some u)
    (hok : subscriber_ok v st = true) :
    jobs_for uid (remove_old u.job_id st.scheduler) = jobs_for uid st.scheduler := by
  cases hj : u.job_id with
  | none => rfl
  | some jid =>
    have h2 := (subscriber_ok_of_handle_some v st u jid hv hj hok).2.1
    show jobs_for uid (remove_job st.scheduler jid) = jobs_for uid st.scheduler
    rw [jobs_for_remove]
    exact remove_other uid v hne st.scheduler jid h2

theorem install_core_ok (v uid : Nat) (st : BotState) (u u2 : UserRecord) (nj : Job)
    (hv : st.user_data v = some u)
    (hok_uid : subscriber_ok uid st = true)
    (hok_v : subscriber_ok v st = true)
    (hnj : is_user_job_id v nj.id = true)
    (hu2j : u2.job_id = some nj.id) (hu2s : u2.is_subscribed = true) :
    subscriber_ok uid
      { user_data := setRec v u2 st.user_data,
        scheduler := add_job (remove_old u.job_id st.scheduler) nj } = true := by
  by_cases huv : uid = v
  · subst huv
    have hsch : jobs_for uid (add_job (remove_old u.job_id st.scheduler) nj) = [nj] := by
      rw [jobs_for_add, jobs_for_remove_old_own uid st u hv hok_v, hnj]
      simp [remove_job]
    have hids : job_ids_for uid (add_job (remove_old u.job_id st.scheduler) nj) = [nj.id] := by
      unfold job_ids_for
      rw [hsch]
      rfl
    simp [subscriber_ok, setRec_same, hu2j, hu2s, hnj, hids]
  · have hd : setRec v u2 st.user_data uid = st.user_data uid :=
      setRec_other uid v huv u2 st.user_data
    have hnj2 : is_user_job_id uid nj.id = false := is_user_job_id_other uid v huv nj.id hnj
    have hs : jobs_for uid (add_job (remove_old u.job_id st.scheduler) nj) =
        jobs_for uid st.scheduler := by
      rw [jobs_for_add, hnj2]
      simp only [Bool.false_eq_true, if_false, List.append_nil]
      rw [show remove_job (jobs_for uid (remove_old u.job_id st.scheduler)) nj.id =
          jobs_for uid (remove_old u.job_id st.scheduler) from
        remove_other uid v huv _ nj.id hnj]
      exact jobs_for_remove_old_other uid v huv st u hv hok_v
    rw [subscriber_ok_congr uid st
      { user_data := setRec v u2 st.user_data,
        scheduler := add_job (remove_old u.job_id st.scheduler) nj } hd hs]
    exact hok_uid

theorem coins_update_ok (v uid : Nat) (st : BotState) (u2 : UserRecord)
    (hok_uid : subscriber_ok uid st = true)
    (hj : u2.job_id = ((st.user_data v).getD default_record).job_id)
    (hs : u2.is_subscribed = ((st.user_data v).getD default_record).is_subscribed) :
    subscriber_ok uid { st with user_data := setRec v u2 st.user_data } = true := by
  by_cases huv : uid = v
  · subst huv
    cases hd : st.user_data uid with
    | none =>
      rw [hd] at hj hs
      simp only [Option.getD_none] at hj hs
      have h2 := subscriber_ok_of_none uid st hd hok_uid
      simp [subscriber_ok, setRec_same, hj, hs, default_record, h2]
    | some u =>
      rw [hd] at hj hs
      simp only [Option.getD_some] at hj hs
      cases hjj : u.job_id with
      | none =>
        obtain ⟨h1, h2⟩ := subscriber_ok_of_handle_none uid st u hd hjj hok_uid
        simp [subscriber_ok, setRec_same, hj, hjj, hs, h1, h2]
      | some jid =>
        obtain ⟨h1, h2, h3⟩ := subscriber_ok_of_handle_some uid st u jid hd hjj hok_uid
        simp [subscriber_ok, setRec_same, hj, hjj, hs, h1, h2, h3]
  · have hd : setRec v u2 st.user_data uid = st.user_data uid :=
      setRec_other uid v huv u2 st.user_data
    rw [subscriber_ok_congr uid st
      { user_data := setRec v u2 st.user_data, scheduler := st.scheduler } hd rfl]
    exact hok_uid

theorem send_price_update_fst (now : String) (fetch : FetchOutcome) (uid : Nat)
    (st : BotState) : (send_price_update now fetch uid st).1 = st := by
  unfold send_price_update
  cases hv : st.user_data uid with
  | none => rfl
  | some u =>
    dsimp only
    split
    · rfl
    · split
      · rfl
      · split <;> rfl

theorem prices_command_fst (fetch : FetchOutcome) (uid : Nat) (st : BotState) :
    (prices_command fetch uid st).1 = st := by
  unfold prices_command
  dsimp only
  split
  · rfl
  · split <;> rfl

theorem install_interval_ok (v uid : Nat) (n : Int) (st : BotState)
    (hok_uid : subscriber_ok uid st = true) (hok_v : subscriber_ok v st = true) :
    subscriber_ok uid (install_interval v n st).1 = true := by
  cases hv : st.user_data v with
  | none =>
    simp only [install_interval, hv]
    exact hok_uid
  | some u =>
    simp only [install_interval, hv]
    exact install_core_ok v uid st u _ _ hv hok_uid hok_v
      (by simp [is_user_job_id]) rfl rfl

theorem install_daily_ok (v uid : Nat) (h m : Int) (st : BotState)
    (hok_uid : subscriber_ok uid st = true) (hok_v : subscriber_ok v st = true) :
    subscriber_ok uid (install_daily v h m st).1 = true := by
  cases hv : st.user_data v with
  | none =>
    simp only [install_daily, hv]
    exact hok_uid
  | some u =>
    simp only [install_daily, hv]
    exact install_core_ok v uid st u _ _ hv hok_uid hok_v
      (by simp [is_user_job_id]) rfl rfl

theorem interval_selection_ok (v uid : Nat) (n : Int) (st : BotState)
    (hok_uid : subscriber_ok uid st = true) (hok_v : subscriber_ok v st = true) :
    subscriber_ok uid (interval_selection_callback v n st).1 = true := by
  cases hv : st.user_data v with
  | none =>
    simp only [interval_selection_callback, hv]
    exact hok_uid
  | some u =>
    simp only [interval_selection_callback, hv]
    exact install_core_ok v uid st u _ _ hv hok_uid hok_v
      (by simp [is_user_job_id]) rfl rfl

/-- Claim C2: for every subscriber record and after every core operation
(schedule activation via interval selection or custom-time input, unsubscribe,
watchlist toggle, fire), the record satisfies: `is_subscribed` is true iff a
`job_id` handle is present iff exactly one live timer is registered for that
subscriber — never zero timers while active, never two.  Formally: every core
operation preserves the per-subscriber invariant `subscriber_ok`, for every
subscriber `uid`, provided the acting user's record also satisfies it. -/
theorem C2_single_timer_invariant (o : Op) (st : BotState) (uid : Nat)
    (h1 : subscriber_ok uid st = true) (h2 : subscriber_ok o.actor st = true) :
    subscriber_ok uid (apply_op o st) = true := by
  cases o with
  | subscribeCmd v =>
    show subscriber_ok uid (subscribe_command v st).1 = true
    cases hv : st.user_data v with
    | none =>
      simp only [subscribe_command, hv]
      exact coins_update_ok v uid st default_record h1
        (by simp [hv]) (by simp [hv])
    | some u =>
      simp only [subscribe_command, hv]
      split <;> exact h1
  | toggleCoin v c =>
    show subscriber_ok uid (coin_selection_callback v c st).1 = true
    simp only [coin_selection_callback]
    exact coins_update_ok v uid st _ h1 rfl rfl
  | coinAction v a =>
    show subscriber_ok uid (coin_action_callback v a st).1 = true
    cases hv : st.user_data v with
    | none =>
      simp only [coin_action_callback, hv]
      exact h1
    | some u =>
      cases a with
      | select_all =>
        simp only [coin_action_callback, hv]
        exact coins_update_ok v uid st _ h1 (by simp [hv]) (by simp [hv])
      | clear_all =>
        simp only [coin_action_callback, hv]
        exact coins_update_ok v uid st _ h1 (by simp [hv]) (by simp [hv])
      | coins_done =>
        simp only [coin_action_callback, hv]
        split <;> exact h1
      | selected_count =>
        simp only [coin_action_callback, hv]
        exact h1
  | intervalSel v n =>
    exact interval_selection_ok v uid n st h1 h2
  | customTime v inp =>
    show subscriber_ok uid (process_custom_time v inp st).1 = true
    cases inp with
    | everyMinutes n =>
      simp only [process_custom_time]
      split
      · exact h1
      · exact install_interval_ok v uid n st h1 h2
    | everyHours n =>
      simp only [process_custom_time]
      split
      · exact h1
      · exact install_interval_ok v uid (n * 60) st h1 h2
    | atTime hh mm =>
      simp only [process_custom_time]
      split
      · exact install_daily_ok v uid hh mm st h1 h2
      · exact h1
    | malformed =>
      exact h1
  | unsubscribeCmd v =>
    show subscriber_ok uid (unsubscribe_command v st).1 = true
    cases hv : st.user_data v with
    | none =>
      simp only [unsubscribe_command, hv]
      exact h1
    | some u =>
      cases hc : u.is_subscribed with
      | false =>
        simp only [unsubscribe_command, hv, hc]
        exact h1
      | true =>
        simp only [unsubscribe_command, hv, hc, ite_true]
        by_cases huv : uid = v
        · subst huv
          have h3 := jobs_for_remove_old_own uid st u hv h1
          simp [subscriber_ok, setRec_same, h3]
        · have hd : setRec v { u with is_subscribed := false, job_id := none }
              st.user_data uid = st.user_data uid := setRec_other uid v huv _ st.user_data
          have hs : jobs_for uid (remove_old u.job_id st.scheduler) =
              jobs_for uid st.scheduler :=
            jobs_for_remove_old_other uid v huv st u hv h2
          rw [subscriber_ok_congr uid st
            { user_data := setRec v { u with is_subscribed := false, job_id := none }
                st.user_data,
              scheduler := remove_old u.job_id st.scheduler } hd hs]
          exact h1
  | fire v now fetch =>
    show subscriber_ok uid (send_price_update now fetch v st).1 = true
    rw [send_price_update_fst]
    exact h1
  | pricesCmd v fetch =>
    show subscriber_ok uid (prices_command fetch v st).1 = true
    rw [prices_command_fst]
    exact h1

/-- Claim C1 (code bug): the startup sequence does NOT re-arm timers.  With a
restored store holding subscriber 42 as `active == true` with the stored spec
`Interval(60)` and a persisted job handle, `run_bot` starts the scheduler,
loads the store, and adds only the periodic save job: subscriber 42 has zero
live timers although the restored record is active (so the store invariant is
already false at startup), and /subscribe even refuses the stranded subscriber
as already subscribed. -/
theorem C1_startup_installs_no_timer :
    ((run_bot_startup restored_store).user_data 42).map UserRecord.is_subscribed =
      some true ∧
    jobs_for 42 (run_bot_startup restored_store).scheduler = [] ∧
    subscriber_ok 42 (run_bot_startup restored_store) = false ∧
    (subscribe_command 42 (run_bot_startup restored_store)).2 =
      Output.alreadySubscribed := by
  refine ⟨rfl, by decide, by decide, rfl⟩

/-- Witness for C2: in the concrete consistent state of user 7, the invariant
holds before and, by the preservation theorem applied to the unsubscribe
operation, after. -/
theorem C2_single_timer_invariant_witness :
    subscriber_ok 7 demo_state = true ∧
    subscriber_ok 7 (apply_op (Op.unsubscribeCmd 7) demo_state) = true :=
  ⟨by decide,
   C2_single_timer_invariant (Op.unsubscribeCmd 7) demo_state 7 (by decide) (by decide)⟩

/-- Counterexample to claim C3: user 5 has an EMPTY watchlist, yet the
interval-selection activation succeeds (`activated`, `is_subscribed` becomes
true, a timer is installed), and the custom-time activation succeeds as well —
neither path fails with an empty-watchlist error.  The claim that every
schedule-activation path fails on an empty watchlist and leaves the subscriber
inactive with no timer is therefore false on the code. -/
theorem C3_counterexample :
    (emptywl_state.user_data 5).map UserRecord.subscribed_coins = some [] ∧
    (interval_selection_callback 5 60 emptywl_state).2 = Output.activated ∧
    ((interval_selection_callback 5 60 emptywl_state).1.user_data 5).map
      UserRecord.is_subscribed = some true ∧
    jobs_for 5 (interval_selection_callback 5 60 emptywl_state).1.scheduler ≠ [] ∧
    (process_custom_time 5 (CustomInput.everyMinutes 30) emptywl_state).2 =
      Output.scheduled ∧
    ((process_custom_time 5 (CustomInput.everyMinutes 30) emptywl_state).1.user_data 5).map
      UserRecord.is_subscribed = some true := by
  refine ⟨rfl, by decide, by decide, by decide, by decide, by decide⟩

/-- Claim C3 as amended: the empty-watchlist guard exists only in the
coin-selection Done step, which refuses with an alert and leaves the state
unchanged; the schedule-activation operations themselves (interval selection
and custom-time input) perform no emptiness check and activate the schedule
even for an empty watchlist. -/
theorem C3_empty_watchlist_guard_only_in_coins_done (uid : Nat) (st : BotState)
    (u : UserRecord) (n : Int) (hv : st.user_data uid = some u)
    (hw : u.subscribed_coins = []) (hn : 1 ≤ n) :
    coin_action_callback uid CoinAction.coins_done st = (st, Output.alertSelectCoin) ∧
    ((interval_selection_callback uid n st).1.user_data uid).map
      UserRecord.is_subscribed = some true ∧
    ((process_custom_time uid (CustomInput.everyMinutes n) st).1.user_data uid).map
      UserRecord.is_subscribed = some true := by
  refine ⟨?_, ?_, ?_⟩
  · simp [coin_action_callback, hv, hw]
  · simp [interval_selection_callback, hv, setRec_same]
  · have hn2 : ¬n < 1 := by omega
    simp [process_custom_time, hn2, install_interval, hv, setRec_same]

/-- Witness for the amended C3 at a concrete input. -/
theorem C3_empty_watchlist_guard_witness :
    (emptywl_state.user_data 5 = some default_record ∧
      default_record.subscribed_coins = [] ∧ (1 : Int) ≤ 60) ∧
    coin_action_callback 5 CoinAction.coins_done emptywl_state =
      (emptywl_state, Output.alertSelectCoin) :=
  ⟨⟨rfl, rfl, by decide⟩,
   (C3_empty_watchlist_guard_only_in_coins_done 5 emptywl_state default_record 60
      rfl rfl (by decide)).1⟩

theorem report_body_skip (s : Snapshot) (a : String) (h : snapshot_find s a = none)
    (pre post : List String) :
    report_body (pre ++ a :: post) s = report_body (pre ++ post) s := by
  induction pre with
  | nil => simp [report_body, h]
  | cons c rest ih =>
    cases hf : snapshot_find s c with
    | none => simp [report_body, hf, ih]
    | some pd =>
      cases hl : coin_name_lookup c with
      | none => simp [report_body, hf, hl]
      | some name => simp [report_body, hf, hl, ih]

/-- Counterexample to claim C4: the report-building step of send_price_update
interpolates the current wall-clock timestamp (line 164), so two evaluations of
the step on the SAME (watchlist, snapshot) pair at different instants yield
different strings — the report is not a function of the pair alone. -/
theorem C4_counterexample :
    build_full_report "2024-01-01 00:00:00" ["bitcoin"]
        [("bitcoin", { usd := 100, usd_24h_change := 5 })] ≠
      build_full_report "2024-01-01 00:00:01" ["bitcoin"]
        [("bitcoin", { usd := 100, usd_24h_change := 5 })] := by
  decide

/-- Claim C4 as amended: the report-building step is deterministic once the
embedded timestamp is fixed — two evaluations on the same
(timestamp, watchlist, snapshot) triple agree — and every watchlist asset
absent from the snapshot is omitted from the report without raising an
error (removing such an asset from the watchlist leaves the report
unchanged). -/
theorem C4_formatter_deterministic_given_timestamp :
    (∀ (now1 now2 : String) (wl : List String) (s : Snapshot), now1 = now2 →
      build_full_report now1 wl s = build_full_report now2 wl s) ∧
    (∀ (now : String) (s : Snapshot) (a : String) (pre post : List String),
      snapshot_find s a = none →
      build_full_report now (pre ++ a :: post) s =
        build_full_report now (pre ++ post) s) := by
  constructor
  · intro now1 now2 wl s h
    rw [h]
  · intro now s a pre post h
    unfold build_full_report
    rw [report_body_skip s a h pre post]

/-- Witness for the amended C4 at a concrete input: "tether" is absent from
the snapshot and its presence in the watchlist does not change the report. -/
theorem C4_formatter_witness :
    snapshot_find [("bitcoin", { usd := 100, usd_24h_change := 5 })] "tether" = none ∧
    build_full_report "t" (["bitcoin"] ++ "tether" :: [])
        [("bitcoin", { usd := 100, usd_24h_change := 5 })] =
      build_full_report "t" (["bitcoin"] ++ [])
        [("bitcoin", { usd := 100, usd_24h_change := 5 })] :=
  ⟨by decide,
   C4_formatter_deterministic_given_timestamp.2 "t"
     [("bitcoin", { usd := 100, usd_24h_change := 5 })] "tether" ["bitcoin"] []
     (by decide)⟩

/-- Counterexample to claim C5: user 9 watches the asset id "tether", which is
not among CRYPTO_OPTIONS; a fire whose snapshot CONTAINS that id does not
produce a report omitting it — the display-name lookup raises IndexError, the
whole message is abandoned, send_price_update ends in its except branch
(logged, nothing sent) and prices_command aborts with an unhandled
exception. -/
theorem C5_counterexample :
    coin_name_lookup "tether" = none ∧
    (send_price_update "t"
        (FetchOutcome.ok [("tether", { usd := 1, usd_24h_change := 0 })]) 9
        tether_state).2 = Output.exceptionLogged ∧
    (prices_command
        (FetchOutcome.ok [("tether", { usd := 1, usd_24h_change := 0 })]) 9
        tether_state).2 = Output.handlerException := by
  refine ⟨by decide, by decide, by decide⟩

theorem report_body_none_of_unknown (coins : List String) (s : Snapshot)
    (c : String) (hc : c ∈ coins) (hlk : coin_name_lookup c = none)
    (pd : PriceData) (hf : snapshot_find s c = some pd) :
    report_body coins s = none := by
  induction coins with
  | nil => exact absurd hc (List.not_mem_nil c)
  | cons a rest ih =>
    rcases List.mem_cons.mp hc with hac | hcr
    · subst hac
      simp [report_body, hf, hlk]
    · have hrest := ih hcr
      cases hfa : snapshot_find s a with
      | none => simp [report_body, hfa, hrest]
      | some pda =>
        cases hla : coin_name_lookup a with
        | none => simp [report_body, hfa, hla]
        | some name => simp [report_body, hfa, hla, hrest]

/-- Claim C5 as amended: an unknown watchlist asset is harmless only while it
is absent from the snapshot; whenever the snapshot does contain any watchlist
asset whose display-name lookup fails (an id not among CRYPTO_OPTIONS), the
fire produces no report at all: send_price_update returns through its
logged-exception branch with the state unchanged, and prices_command ends in
an unhandled handler exception. -/
theorem C5_unknown_asset_aborts_fire (now : String) (st : BotState) (uid : Nat)
    (u : UserRecord) (c : String) (pd : PriceData) (s : Snapshot)
    (hv : st.user_data uid = some u) (hc : c ∈ u.subscribed_coins)
    (hlk : coin_name_lookup c = none) (hf : snapshot_find s c = some pd) :
    (send_price_update now (FetchOutcome.ok s) uid st).2 = Output.exceptionLogged ∧
    (send_price_update now (FetchOutcome.ok s) uid st).1 = st ∧
    (prices_command (FetchOutcome.ok s) uid st).2 = Output.handlerException := by
  have hs : s ≠ [] := by
    intro he
    rw [he] at hf
    simp [snapshot_find] at hf
  have hw : u.subscribed_coins ≠ [] := by
    intro he
    rw [he] at hc
    exact absurd hc (List.not_mem_nil c)
  have hbody : report_body u.subscribed_coins s = none :=
    report_body_none_of_unknown u.subscribed_coins s c hc hlk pd hf
  refine ⟨?_, send_price_update_fst now (FetchOutcome.ok s) uid st, ?_⟩
  · simp [send_price_update, hv, hw, get_crypto_prices, hs, build_full_report, hbody]
  · simp [prices_command, hv, hw, get_crypto_prices, hs, hbody]

/-- Witness for the amended C5: user 13 watches ["bitcoin", "tether"], the
snapshot carries both ids, and the fire aborts through the logged-exception
branch. -/
theorem C5_unknown_asset_witness :
    (mixed_state.user_data 13).map UserRecord.subscribed_coins =
      some ["bitcoin", "tether"] ∧
    (send_price_update "t"
        (FetchOutcome.ok [("bitcoin", { usd := 100, usd_24h_change := 1 }),
                          ("tether", { usd := 1, usd_24h_change := 0 })]) 13
        mixed_state).2 = Output.exceptionLogged :=
  ⟨by decide,
   (C5_unknown_asset_aborts_fire "t" mixed_state 13
      { subscribed_coins := ["bitcoin", "tether"], update_interval := 60,
        is_subscribed := true, job_id := some (JobId.user 13) }
      "tether" { usd := 1, usd_24h_change := 0 }
      [("bitcoin", { usd := 100, usd_24h_change := 1 }),
       ("tether", { usd := 1, usd_24h_change := 0 })]
      rfl (by decide) (by decide) (by decide)).1⟩

/-- Claim C6: every custom-schedule input denoting an interval below one
minute or a daily time with an out-of-range hour or minute is rejected
synchronously with a validation error message, and the subscriber's prior
stored state — watchlist, stored interval, job handle, active flag, and the
scheduler's job store — is left completely unchanged. -/
theorem C6_invalid_schedule_rejected (uid : Nat) (st : BotState)
    (inp : CustomInput) (h : invalid_schedule_input inp = true) :
    (process_custom_time uid inp st).1 = st ∧
    ∃ e, (process_custom_time uid inp st).2 = Output.errorMsg e := by
  cases inp with
  | everyMinutes n =>
    have hn : n < 1 := by simpa [invalid_schedule_input] using h
    exact ⟨by simp [process_custom_time, hn],
      ⟨"Interval must be at least 1 minute", by simp [process_custom_time, hn]⟩⟩
  | everyHours n =>
    have hn : n * 60 < 1 := by simpa [invalid_schedule_input] using h
    exact ⟨by simp [process_custom_time, hn],
      ⟨"Interval must be at least 1 minute", by simp [process_custom_time, hn]⟩⟩
  | atTime hh mm =>
    by_cases hc : 0 ≤ hh ∧ hh < 24 ∧ 0 ≤ mm ∧ mm < 60
    · exfalso
      simp [invalid_schedule_input, hc.1, hc.2.1, hc.2.2.1, hc.2.2.2] at h
    · exact ⟨by simp [process_custom_time, hc],
        ⟨"Invalid time", by simp [process_custom_time, hc]⟩⟩
  | malformed => simp [invalid_schedule_input] at h

/-- Witness for C6 at the concrete input "every 0 minutes". -/
theorem C6_invalid_schedule_witness :
    invalid_schedule_input (CustomInput.everyMinutes 0) = true ∧
    (process_custom_time 3 (CustomInput.everyMinutes 0) idle_state).1 = idle_state :=
  ⟨by decide,
   (C6_invalid_schedule_rejected 3 idle_state (CustomInput.everyMinutes 0)
      (by decide)).1⟩

/-- Claim C7: for a subscriber with an active schedule and a non-empty
watchlist, a fire whose price fetch fails (yields the empty snapshot) changes
nothing: the returned state is exactly the input state (record fields, job
handle, active flag and the whole scheduler untouched), and the only output is
the could-not-fetch warning. -/
theorem C7_fetch_failure_keeps_schedule (now : String) (fetch : FetchOutcome)
    (uid : Nat) (st : BotState) (u : UserRecord)
    (hv : st.user_data uid = some u) (_hsub : u.is_subscribed = true)
    (hw : u.subscribed_coins ≠ []) (hf : get_crypto_prices fetch = []) :
    send_price_update now fetch uid st = (st, Output.fetchWarning) := by
  simp [send_price_update, hv, hw, hf]

/-- Witness for C7 at a concrete failed fetch. -/
theorem C7_fetch_failure_witness :
    demo_record.is_subscribed = true ∧ demo_record.subscribed_coins ≠ [] ∧
    get_crypto_prices FetchOutcome.badStatus = [] ∧
    send_price_update "t" FetchOutcome.badStatus 7 demo_state =
      (demo_state, Output.fetchWarning) :=
  ⟨rfl, by decide, rfl,
   C7_fetch_failure_keeps_schedule "t" FetchOutcome.badStatus 7 demo_state
     demo_record rfl rfl (by decide) rfl⟩

theorem send_price_update_snd (now : String) (fetch : FetchOutcome) (uid : Nat)
    (st : BotState) (u : UserRecord) (hv : st.user_data uid = some u) :
    (send_price_update now fetch uid st).2 = fire_output now fetch u.subscribed_coins := by
  by_cases h1 : u.subscribed_coins = []
  · simp [send_price_update, fire_output, hv, h1]
  · by_cases h2 : get_crypto_prices fetch = []
    · simp [send_price_update, fire_output, hv, h1, h2]
    · cases hb : build_full_report now u.subscribed_coins (get_crypto_prices fetch) with
      | none => simp [send_price_update, fire_output, hv, h1, h2, hb]
      | some m => simp [send_price_update, fire_output, hv, h1, h2, hb]

theorem jobs_for_after_install (v : Nat) (st : BotState) (u : UserRecord) (nj : Job)
    (hv : st.user_data v = some u) (hok : subscriber_ok v st = true)
    (hnj : is_user_job_id v nj.id = true) :
    jobs_for v (add_job (remove_old u.job_id st.scheduler) nj) = [nj] := by
  rw [jobs_for_add, jobs_for_remove_old_own v st u hv hok, hnj]
  simp [remove_job]

/-- Claim C8: a fire reads the watchlist from the store at fire time, not a
copy captured at install time.  After installing an interval schedule, the
only live timer for the subscriber carries just the user id and the trigger —
no watchlist; and after a subsequent watchlist edit (coin toggle) the fire's
output is exactly the fire function of the EDITED watchlist. -/
theorem C8_fire_reads_current_watchlist (now : String) (fetch : FetchOutcome)
    (uid : Nat) (n : Int) (c : String) (st : BotState) (u : UserRecord)
    (hv : st.user_data uid = some u) (hok : subscriber_ok uid st = true) :
    jobs_for uid (interval_selection_callback uid n st).1.scheduler =
      [{ id := JobId.user uid, trigger := Trigger.interval n, userArg := some uid }] ∧
    ((coin_selection_callback uid c (interval_selection_callback uid n st).1).1.user_data
        uid).map UserRecord.subscribed_coins =
      some (toggle_coin c u.subscribed_coins) ∧
    (send_price_update now fetch uid
        (coin_selection_callback uid c (interval_selection_callback uid n st).1).1).2 =
      fire_output now fetch (toggle_coin c u.subscribed_coins) := by
  refine ⟨?_, ?_, ?_⟩
  · simp only [interval_selection_callback, hv]
    exact jobs_for_after_install uid st u _ hv hok (by simp [is_user_job_id])
  · simp [interval_selection_callback, hv, coin_selection_callback, setRec_same]
  · have hrec : (coin_selection_callback uid c
        (interval_selection_callback uid n st).1).1.user_data uid =
        some { subscribed_coins := toggle_coin c u.subscribed_coins,
               update_interval := n, is_subscribed := true,
               job_id := some (JobId.user uid) } := by
      simp [interval_selection_callback, hv, coin_selection_callback, setRec_same]
    rw [send_price_update_snd now fetch uid _ _ hrec]

/-- Witness for C8: user 7 installs a 30-minute schedule, then toggles
"ethereum" off; the edited watchlist is just ["bitcoin"] and the next fire is
the fire function of that edited watchlist. -/
theorem C8_fire_reads_current_watchlist_witness :
    toggle_coin "ethereum" demo_record.subscribed_coins = ["bitcoin"] ∧
    (send_price_update "t"
        (FetchOutcome.ok [("bitcoin", { usd := 100, usd_24h_change := 0 })]) 7
        (coin_selection_callback 7 "ethereum"
          (interval_selection_callback 7 30 demo_state).1).1).2 =
      fire_output "t"
        (FetchOutcome.ok [("bitcoin", { usd := 100, usd_24h_change := 0 })])
        (toggle_coin "ethereum" demo_record.subscribed_coins) :=
  ⟨by decide,
   (C8_fire_reads_current_watchlist "t"
      (FetchOutcome.ok [("bitcoin", { usd := 100, usd_24h_change := 0 })])
      7 30 "ethereum" demo_state demo_record rfl (by decide)).2.2⟩

/-- Counterexample to claim C9: unsubscribing does NOT clear the stored
schedule spec.  After unsubscribe, user 11's record still holds the stored
interval 30, and two pre-states that differed only in their stored schedule
spec remain distinguishable after unsubscribing — the spec datum is retained,
not cleared. -/
theorem C9_counterexample :
    ((unsubscribe_command 11 (c9_state 30)).1.user_data 11).map
      UserRecord.update_interval = some 30 ∧
    ((unsubscribe_command 11 (c9_state 30)).1.user_data 11).map
        UserRecord.update_interval ≠
      ((unsubscribe_command 11 (c9_state 60)).1.user_data 11).map
        UserRecord.update_interval := by
  refine ⟨by decide, by decide⟩

/-- Claim C9 as amended: for a subscribed subscriber, unsubscribe clears the
job handle and the active flag and removes the stored job from the scheduler,
while leaving the watchlist AND the stored interval exactly as they were; the
record itself is never deleted. -/
theorem C9_unsubscribe_frame (uid : Nat) (st : BotState) (u : UserRecord)
    (hv : st.user_data uid = some u) (hs : u.is_subscribed = true) :
    (unsubscribe_command uid st).1.user_data uid =
      some { u with is_subscribed := false, job_id := none } ∧
    (unsubscribe_command uid st).1.scheduler = remove_old u.job_id st.scheduler ∧
    (unsubscribe_command uid st).2 = Output.unsubscribed := by
  simp [unsubscribe_command, hv, hs, setRec_same]

/-- Witness for the amended C9 at a concrete subscribed state. -/
theorem C9_unsubscribe_frame_witness :
    (c9_state 30).user_data 11 = some (c9_record 30) ∧
    (c9_record 30).is_subscribed = true ∧
    (unsubscribe_command 11 (c9_state 30)).1.user_data 11 =
      some { c9_record 30 with is_subscribed := false, job_id := none } :=
  ⟨rfl, rfl, (C9_unsubscribe_frame 11 (c9_state 30) (c9_record 30) rfl rfl).1⟩

/-- Claim C10: a fetch that yields the empty mapping — HTTP failure, non-200
status, or a successful but empty response — produces the could-not-fetch
warning and no report, both for a scheduled fire and for /prices, and the
successful-empty case is indistinguishable from the two error cases: the
operations return identical results. -/
theorem C10_empty_snapshot_indistinguishable (now : String) (uid : Nat)
    (st : BotState) (u : UserRecord) (hv : st.user_data uid = some u)
    (hw : u.subscribed_coins ≠ []) :
    (∀ fetch, get_crypto_prices fetch = [] →
      (send_price_update now fetch uid st).2 = Output.fetchWarning ∧
      (prices_command fetch uid st).2 = Output.fetchWarning) ∧
    send_price_update now (FetchOutcome.ok []) uid st =
      send_price_update now FetchOutcome.badStatus uid st ∧
    send_price_update now (FetchOutcome.ok []) uid st =
      send_price_update now FetchOutcome.exn uid st ∧
    prices_command (FetchOutcome.ok []) uid st =
      prices_command FetchOutcome.badStatus uid st ∧
    prices_command (FetchOutcome.ok []) uid st =
      prices_command FetchOutcome.exn uid st := by
  refine ⟨?_, rfl, rfl, rfl, rfl⟩
  intro fetch hf
  constructor
  · simp [send_price_update, hv, hw, hf]
  · simp [prices_command, hf]

/-- Witness for C10 at a concrete state and failed fetch. -/
theorem C10_empty_snapshot_witness :
    demo_record.subscribed_coins ≠ [] ∧
    (send_price_update "t" FetchOutcome.badStatus 7 demo_state).2 =
      Output.fetchWarning :=
  ⟨by decide,
   ((C10_empty_snapshot_indistinguishable "t" 7 demo_state demo_record rfl
      (by decide)).1 FetchOutcome.badStatus rfl).1⟩

end CryptoBot
